import Mathlib

/-!
# Shallow embedding of the swords container codec

Bytes are modelled as `Nat` (values kept below 256 by construction where the
code produces them).  Rust `String`s are modelled by their UTF-8 byte lists,
`HashMap` by association lists (iteration order of a Rust `HashMap` is
arbitrary; the list order plays that role), `Vec<u8>`/`Box<[u8]>` by
`List Nat`, panics (`unwrap` on `None`, invalid-UTF-8 `unwrap`) by `Option`
with `none` for the panic, and fallible functions by `Except`.
-/

namespace Swords

/-- Mirrors `src/error.rs` — `ParseError`.  Field names (Rust `String`) are carried as
UTF-8 byte lists; `EncodingError`'s `Utf8Error` payload is dropped. -/
inductive ParseError where
  | invalidMagicNumber
  | invalidVersionNumber
  | unexpectedStarterByte
  | unexpectedEndOfFile
  | missingRequiredField (name : List Nat)
  | forbiddenSecretField (name : List Nat)
  | forbiddenNonSecretField (name : List Nat)
  | unexpectedEndOfValue (remaining needed : Nat)
  | encodingError
deriving DecidableEq, Repr

/-- Mirrors `src/error.rs` / `src/cipher.rs` — cipher-layer error. -/
inductive CipherError where
  | missingRequiredExtra (name : List Nat)
  | encryptionError
deriving DecidableEq, Repr

/-- Validity of a byte list as UTF-8, mirroring what Rust's
`std::str::from_utf8` accepts (RFC 3629: no overlong forms, no surrogates,
at most U+10FFFF). -/
def isValidUtf8 : List Nat → Bool
  | [] => true
  | b :: rest =>
    if b < 0x80 then isValidUtf8 rest
    else if b < 0xC2 then false
    else if b < 0xE0 then
      match rest with
      | c1 :: rest' => decide (0x80 ≤ c1 ∧ c1 < 0xC0) && isValidUtf8 rest'
      | _ => false
    else if b < 0xF0 then
      match rest with
      | c1 :: c2 :: rest' =>
        let lo1 := if b = 0xE0 then 0xA0 else 0x80
        let hi1 := if b = 0xED then 0xA0 else 0xC0
        decide (lo1 ≤ c1 ∧ c1 < hi1) && decide (0x80 ≤ c2 ∧ c2 < 0xC0) &&
          isValidUtf8 rest'
      | _ => false
    else if b < 0xF5 then
      match rest with
      | c1 :: c2 :: c3 :: rest' =>
        let lo1 := if b = 0xF0 then 0x90 else 0x80
        let hi1 := if b = 0xF4 then 0x90 else 0xC0
        decide (lo1 ≤ c1 ∧ c1 < hi1) && decide (0x80 ≤ c2 ∧ c2 < 0xC0) &&
          decide (0x80 ≤ c3 ∧ c3 < 0xC0) && isValidUtf8 rest'
      | _ => false
    else false

/-- Mirrors `(length as u16).to_be_bytes()` — the `as u16` cast wraps modulo 2^16,
then the two big-endian bytes are written. -/
def u16castBeBytes (n : Nat) : List Nat :=
  [n % 65536 / 256, n % 256]

/-- Mirrors `u32::to_be_bytes` for the header version. -/
def u32BeBytes (n : Nat) : List Nat :=
  [n / 16777216 % 256, n / 65536 % 256, n / 256 % 256, n % 256]

/-- Mirrors `src/entity/value.rs` — `Value`: raw bytes, transient revealed string
(never set by any code path modelled here except `Value::new`, which sets
`None`), and the secrecy flag. -/
structure Value where
  value : List Nat
  revealedValue : Option (List Nat)
  isSecret : Bool
deriving Repr

/-- Mirrors `Value::new(value, is_secret)`. -/
def Value.new (value : List Nat) (isSecret : Bool) : Value :=
  ⟨value, none, isSecret⟩

/-- Mirrors `Value::is_secret`. -/
def Value.is_secret (v : Value) : Bool := v.isSecret

/-- Mirrors `Value::take` — surrenders the raw bytes. -/
def Value.take (v : Value) : List Nat := v.value

/-- Mirrors `Value::parse_string` — UTF-8 interpretation of the bytes; the resulting
Rust `String` is modelled by the (valid) byte list itself. -/
def Value.parse_string (v : Value) : Except ParseError (List Nat) :=
  if isValidUtf8 v.value then .ok v.value else .error .encodingError

/-- Mirrors `Value::to_bytes` (src/entity/value.rs lines 39–47): two big-endian
length bytes (the length cast `as u16`) followed by the payload.  Note the
source emits no starter byte here. -/
def Value.to_bytes (v : Value) : List Nat :=
  u16castBeBytes v.value.length ++ v.value

/-- Byte constants from src/entity/value.rs, record.rs, collection.rs. -/
def VALUE_STARTER_BYTE : Nat := 0x00

def SECRET_VALUE_STARTER_BYTE : Nat := 0x01

def RECORD_STARTER_BYTE : Nat := 0x02

def COLLECTION_STARTER_BYTE : Nat := 0x03

def COLLECTION_ENDER_BYTE : Nat := 0x04

/-- Modelled from the spec: `Value::str_to_bytes` is called by every
serializer (`Header::to_bytes`, `Record::to_bytes`, `Collection::to_bytes`)
but its definition is in a source file missing from the repository snapshot.
Spec §4.1: a value is written `[starter byte][length: 2 bytes, big-endian
u16][payload]`, the starter being 0x00 when non-secret and 0x01 when secret,
and keys are serialized identically to non-secret values. -/
def Value.str_to_bytes (s : List Nat) (isSecret : Bool) : List Nat :=
  (if isSecret then [SECRET_VALUE_STARTER_BYTE] else [VALUE_STARTER_BYTE]) ++
    u16castBeBytes s.length ++ s

/-- Modelled from the spec: `util::MAGIC_NUMBER` lives in a source file
missing from the repository snapshot.  Spec §6 requires only a fixed 8-byte
constant; the concrete bytes are not given by the spec, so an arbitrary
8-byte constant is used (no claim below depends on the particular bytes). -/
def MAGIC_NUMBER : List Nat :=
  [0x73, 0x77, 0x6f, 0x72, 0x64, 0x73, 0x00, 0x00]

/-- Mirrors `Entries = HashMap<String, Value>` as an association list; keys are
UTF-8 byte lists. -/
abbrev Entries := List (List Nat × Value)

/-- Mirrors `HashMap::get`. -/
def entriesGet (e : Entries) (k : List Nat) : Option Value :=
  (e.find? (fun p => p.1 == k)).map (·.2)

/-- Mirrors `HashMap::contains_key`. -/
def entriesContains (e : Entries) (k : List Nat) : Bool :=
  (entriesGet e k).isSome

/-- Mirrors `HashMap::insert` — overwrites the value on a duplicate key. -/
def entriesInsert (e : Entries) (k : List Nat) (v : Value) : Entries :=
  if entriesContains e k then
    e.map (fun p => if p.1 == k then (p.1, v) else p)
  else
    e ++ [(k, v)]

/-- Mirrors `HashMap::remove`, returning the removed value and the shrunk map
(`none` when the key is absent, where the callers' `.unwrap()` panics). -/
def entriesRemove (e : Entries) (k : List Nat) :
    Option (Value × Entries) :=
  match entriesGet e k with
  | none => none
  | some v => some (v, e.filter (fun p => p.1 != k))

/-- ASCII string constants used as field names (UTF-8 bytes). -/
def kV : List Nat := [0x76]

def kMKHF : List Nat := [0x6d, 0x6b, 0x68, 0x66]

def kKHF : List Nat := [0x6b, 0x68, 0x66]

def kKC : List Nat := [0x6b, 0x63]

def kMKS : List Nat := [0x6d, 0x6b, 0x73]

def kKS : List Nat := [0x6b, 0x73]

def kMKH : List Nat := [0x6d, 0x6b, 0x68]

def kLabel : List Nat := [0x6c, 0x61, 0x62, 0x65, 0x6c]

def kSecret : List Nat := [0x73, 0x65, 0x63, 0x72, 0x65, 0x74]

/-- Mirrors `src/cipher.rs` — `DecryptFn`/`EncryptFn`:
`(data, key, extras: map of name → bytes) → bytes or CipherError`. -/
abbrev CipherFn :=
  List Nat → List Nat → List (List Nat × List Nat) → Except CipherError (List Nat)

/-- Mirrors `src/hash.rs` — `HashFunction: Fn(&[u8]) -> Vec<u8>`. -/
abbrev HashFn := List Nat → List Nat

/-- Mirrors `src/entity/record.rs` — `Record`. -/
structure Record where
  label : List Nat
  secret : List Nat
  revealedSecret : Option (List Nat)
  extras : Entries

/-- Mirrors `Record::new(label, secret)`. -/
def Record.new (label : List Nat) (secret : List Nat) : Record :=
  ⟨label, secret, none, []⟩

/-- Mirrors `Record::add_extra`. -/
def Record.add_extra (r : Record) (k : List Nat) (v : List Nat)
    (isSecret : Bool) : Record :=
  { r with extras := entriesInsert r.extras k (Value.new v isSecret) }

/-- Mirrors `Record::reveal` (src/entity/record.rs lines 56–72).  The decrypt
function receives `(secret, key, extras as byte map)`; a cipher error yields
`false` with the record unchanged; on success the plaintext is decoded with
`std::str::from_utf8(..).unwrap()` — the `unwrap` panics on invalid UTF-8,
modelled as `none`. -/
def Record.reveal (r : Record) (decryptFn : CipherFn) (key : List Nat) :
    Option (Bool × Record) :=
  let decryptExtras := r.extras.map (fun p => (p.1, p.2.value))
  match decryptFn r.secret key decryptExtras with
  | .error _ => some (false, r)
  | .ok secretBytes =>
    if isValidUtf8 secretBytes then
      some (true, { r with revealedSecret := some secretBytes })
    else
      none

/-- Mirrors `Record::to_bytes` (src/entity/record.rs lines 74–88): starter byte,
then `label_bytes()` (= `Value::new(b"label", false).to_bytes()`, no starter
byte), the label via `str_to_bytes`, `secret_bytes()` likewise, the secret
via `Value::new(secret, true).to_bytes()`, then the extras. -/
def Record.to_bytes (r : Record) : List Nat :=
  RECORD_STARTER_BYTE ::
    ((Value.new kLabel false).to_bytes ++ Value.str_to_bytes r.label false ++
      (Value.new kSecret false).to_bytes ++ (Value.new r.secret true).to_bytes ++
      (r.extras.map
        (fun p => Value.str_to_bytes p.1 false ++ p.2.to_bytes)).flatten)

/-- Mirrors `impl TryFrom<Entries> for Record` (src/entity/record.rs lines 99–134). -/
def Record.tryFrom (rawRecord : Entries) : Except ParseError Record :=
  if !entriesContains rawRecord kLabel then
    .error (.missingRequiredField kLabel)
  else if ((entriesGet rawRecord kLabel).getD (Value.new [] false)).is_secret then
    .error (.forbiddenSecretField kLabel)
  else if !entriesContains rawRecord kSecret then
    .error (.missingRequiredField kSecret)
  else if !((entriesGet rawRecord kSecret).getD (Value.new [] true)).is_secret then
    .error (.forbiddenNonSecretField kSecret)
  else
    match entriesRemove rawRecord kLabel with
    | none => .error (.missingRequiredField kLabel)
    | some (labelValue, rawRecord) =>
      match labelValue.parse_string with
      | .error e => .error e
      | .ok label =>
        match entriesRemove rawRecord kSecret with
        | none => .error (.missingRequiredField kSecret)
        | some (secretValue, rawRecord) =>
          .ok ⟨label, secretValue.take, none, rawRecord⟩

/-- Mirrors `src/entity/collection.rs` — `Collection`: label, ordered children,
ordered records, extras. -/
inductive Collection where
  | mk (label : List Nat) (children : List Collection)
       (records : List Record) (extras : Entries)

def Collection.label : Collection → List Nat
  | .mk l _ _ _ => l

def Collection.children : Collection → List Collection
  | .mk _ c _ _ => c

def Collection.records : Collection → List Record
  | .mk _ _ r _ => r

def Collection.extras : Collection → Entries
  | .mk _ _ _ e => e

/-- Mirrors `Collection::new(label)`. -/
def Collection.new (label : List Nat) : Collection := .mk label [] [] []

mutual

/-- Mirrors `Collection::to_bytes` (src/entity/collection.rs lines 97–116): starter
byte, extras (the label field itself is *not* written — it lives outside
`extras` after construction), children in order, records in order, ender
byte. -/
def Collection.to_bytes : Collection → List Nat
  | .mk _label children records extras =>
    COLLECTION_STARTER_BYTE ::
      ((extras.map (fun p => Value.str_to_bytes p.1 false ++ p.2.to_bytes)).flatten ++
        collectionListToBytes children ++
        (records.map Record.to_bytes).flatten ++
        [COLLECTION_ENDER_BYTE])

/-- The serializer's iteration over child collections. -/
def collectionListToBytes : List Collection → List Nat
  | [] => []
  | c :: cs => c.to_bytes ++ collectionListToBytes cs

end

/-- Mirrors `impl TryFrom<(Vec<Collection>, Vec<Record>, Entries)> for Collection`
(src/entity/collection.rs lines 119–145). -/
def Collection.tryFrom (children : List Collection) (records : List Record)
    (extras : Entries) : Except ParseError Collection :=
  if !entriesContains extras kLabel then
    .error (.missingRequiredField kLabel)
  else if ((entriesGet extras kLabel).getD (Value.new [] false)).is_secret then
    .error (.forbiddenSecretField kLabel)
  else
    match entriesRemove extras kLabel with
    | none => .error (.missingRequiredField kLabel)
    | some (labelValue, extras) =>
      match labelValue.parse_string with
      | .error e => .error e
      | .ok label => .ok (.mk label children records extras)

/-- Mirrors `src/entity.rs` — `Header`. -/
structure Header where
  version : Nat
  masterKeyHashFn : List Nat
  keyHashFn : List Nat
  masterKeyHash : List Nat
  keyCipher : List Nat
  masterKeySalt : List Nat
  keySalt : List Nat
  key : Option (List Nat)
  extras : Entries

/-- Mirrors `Header::new` (src/entity.rs lines 138–159): the transient key slot
starts empty. -/
def Header.new (version : Nat) (masterKeyHashFunctionName keyHashFunctionName
    keyCipher masterKeyHash masterKeySalt keySalt : List Nat)
    (extras : Entries) : Header :=
  ⟨version, masterKeyHashFunctionName, keyHashFunctionName, masterKeyHash,
    keyCipher, masterKeySalt, keySalt, none, extras⟩

/-- Mirrors `Header::set_key`. -/
def Header.set_key (h : Header) (key : List Nat) : Header :=
  { h with key := some key }

/-- Mirrors `Header::set_version` — called by `Parser::parse_header` after
`try_from` (src/io/parser.rs line 55). -/
def Header.set_version (h : Header) (version : Nat) : Header :=
  { h with version := version }

/-- Mirrors `VERSION_BYTES_LENGTH` (src/entity.rs line 14). -/
def VERSION_BYTES_LENGTH : Nat := 4

/-- Mirrors `REQUIRED_HEADER_FIELDS` (src/entity.rs line 135), in source order. -/
def REQUIRED_HEADER_FIELDS : List (List Nat) :=
  [kV, kMKHF, kKHF, kMKS, kKS, kMKH, kKC]

/-- Mirrors `Header::to_bytes` (src/entity.rs lines 189–210): the `"v"` key then the
*raw* version bytes, `"mkhf"`/`"khf"` with `str_to_bytes`-framed values, the
`"mks"`/`"ks"`/`"mkh"` keys each followed by the *raw* salt/hash bytes (the
source passes them to `extend_from_slice` unframed), then the extras.  The
`"kc"` field and the transient key slot are not written. -/
def Header.to_bytes (h : Header) : List Nat :=
  Value.str_to_bytes kV false ++ u32BeBytes h.version ++
    Value.str_to_bytes kMKHF false ++ Value.str_to_bytes h.masterKeyHashFn false ++
    Value.str_to_bytes kKHF false ++ Value.str_to_bytes h.keyHashFn false ++
    Value.str_to_bytes kMKS false ++ h.masterKeySalt ++
    Value.str_to_bytes kKS false ++ h.keySalt ++
    Value.str_to_bytes kMKH false ++ h.masterKeyHash ++
    (h.extras.map (fun p => Value.str_to_bytes p.1 false ++ p.2.to_bytes)).flatten

/-- The required-field loop of `impl TryFrom<Entries> for Header`
(src/entity.rs lines 220–228), returning the first violation in field
order. -/
def headerRequiredCheck (raw : Entries) : List (List Nat) → Option ParseError
  | [] => none
  | f :: fs =>
    if !entriesContains raw f then
      some (.missingRequiredField f)
    else if ((entriesGet raw f).getD (Value.new [] false)).is_secret then
      some (.forbiddenSecretField f)
    else
      headerRequiredCheck raw fs

/-- Mirrors `impl TryFrom<Entries> for Header` (src/entity.rs lines 217–253).  After
the required-field loop the source takes the *version* bytes from the
`"mkhf"` entry (sic), demands exactly 4 bytes, and then removes `"mkhf"` a
second time — that `remove(..).unwrap()` finds nothing and panics, modelled
as `none`.  The continuation after that point is kept faithful to the
source even though it is unreachable. -/
def Header.tryFrom (rawHeader : Entries) :
    Option (Except ParseError Header) :=
  match headerRequiredCheck rawHeader REQUIRED_HEADER_FIELDS with
  | some e => some (.error e)
  | none =>
    match entriesRemove rawHeader kMKHF with
    | none => none
    | some (versionValue, rawHeader) =>
      let versionBytes := versionValue.take
      if versionBytes.length ≠ VERSION_BYTES_LENGTH then
        some (.error .invalidVersionNumber)
      else
        match entriesRemove rawHeader kMKHF with
        | none => none
        | some (mkhfValue, rawHeader) =>
          match mkhfValue.parse_string with
          | .error e => some (.error e)
          | .ok masterKeyHashFn =>
            match entriesRemove rawHeader kKHF with
            | none => none
            | some (khfValue, rawHeader) =>
              match khfValue.parse_string with
              | .error e => some (.error e)
              | .ok keyHashFn =>
                match entriesRemove rawHeader kKC with
                | none => none
                | some (kcValue, rawHeader) =>
                  match kcValue.parse_string with
                  | .error e => some (.error e)
                  | .ok keyCipher =>
                    match entriesRemove rawHeader kMKS with
                    | none => none
                    | some (mksValue, rawHeader) =>
                      match entriesRemove rawHeader kKS with
                      | none => none
                      | some (ksValue, rawHeader) =>
                        match entriesRemove rawHeader kMKH with
                        | none => none
                        | some (mkhValue, rawHeader) =>
                          some (.ok (Header.new 0 masterKeyHashFn keyHashFn
                            keyCipher mkhValue.take mksValue.take ksValue.take
                            rawHeader))

/-- Mirrors `src/hash.rs` — `HashFunctionRegistry`. -/
structure HashFunctionRegistry where
  functions : List (List Nat × HashFn)

/-- Mirrors `HashFunctionRegistry::get_function` (src/hash.rs lines 22–24):
`self.functions.get(name).unwrap()` — the `unwrap` panics on an
unregistered name, modelled as `none`. -/
def HashFunctionRegistry.get_function (r : HashFunctionRegistry)
    (name : List Nat) : Option HashFn :=
  (r.functions.find? (fun p => p.1 == name)).map (·.2)

/-- Mirrors `HashFunctionRegistry::get_names`. -/
def HashFunctionRegistry.get_names (r : HashFunctionRegistry) :
    List (List Nat) :=
  r.functions.map (·.1)

/-- Mirrors `src/cipher.rs` — `CipherRegistry`. -/
structure CipherRegistry where
  encryptFunctions : List (List Nat × CipherFn)
  decryptFunctions : List (List Nat × CipherFn)

/-- Mirrors `CipherRegistry::get_encryptor` (src/cipher.rs lines 32–34): `unwrap`
panics on an unregistered name, modelled as `none`. -/
def CipherRegistry.get_encryptor (r : CipherRegistry) (name : List Nat) :
    Option CipherFn :=
  (r.encryptFunctions.find? (fun p => p.1 == name)).map (·.2)

/-- Mirrors `CipherRegistry::get_decryptor` (src/cipher.rs lines 36–38): `unwrap`
panics on an unregistered name, modelled as `none`. -/
def CipherRegistry.get_decryptor (r : CipherRegistry) (name : List Nat) :
    Option CipherFn :=
  (r.decryptFunctions.find? (fun p => p.1 == name)).map (·.2)

/-- Mirrors `src/entity.rs` — `Swd`, the container. -/
structure Swd where
  header : Header
  root : Collection
  cipherRegistry : CipherRegistry
  hashFunctionRegistry : HashFunctionRegistry

/-- Mirrors `Swd::to_bytes` (src/entity.rs lines 85–91). -/
def Swd.to_bytes (s : Swd) : List Nat :=
  MAGIC_NUMBER ++ s.header.to_bytes ++ s.root.to_bytes

/-- Mirrors `Swd::validate_master_key` (src/entity.rs lines 93–100): hashes
`master_key ‖ master_key_salt` under the header's master-key hash function
(looked up with a panicking `unwrap`, hence `Option`) and compares with the
stored digest. -/
def Swd.validate_master_key (s : Swd) (masterKey : List Nat) : Option Bool :=
  match s.hashFunctionRegistry.get_function s.header.masterKeyHashFn with
  | none => none
  | some hash =>
    some (decide (hash (masterKey ++ s.header.masterKeySalt) =
      s.header.masterKeyHash))

/-- Mirrors `Swd::populate_key` (src/entity.rs lines 102–108): stores
`hash(master_key ‖ key_salt)` under the header's key hash function into the
key slot. -/
def Swd.populate_key (s : Swd) (masterKey : List Nat) : Option Swd :=
  match s.hashFunctionRegistry.get_function s.header.keyHashFn with
  | none => none
  | some hash =>
    some { s with header :=
      s.header.set_key (hash (masterKey ++ s.header.keySalt)) }

/-- Mirrors `Swd::unlock` (src/entity.rs lines 54–61). -/
def Swd.unlock (s : Swd) (masterKey : List Nat) : Option (Bool × Swd) :=
  match s.validate_master_key masterKey with
  | none => none
  | some false => some (false, s)
  | some true =>
    match s.populate_key masterKey with
    | none => none
    | some s' => some (true, s')

/-! ## Parser (src/io/parser.rs)

The stateful cursor is modelled by passing the remaining input explicitly;
each parsing function returns the parsed entity together with the remaining
input.  The `while` loops and the recursion into child collections are
expressed with a fuel parameter so that every definition is structural and
computes by kernel reduction; the top-level `Parser.parse` supplies fuel
larger than the input length, which no run can exhaust since every loop
iteration consumes at least one byte. -/

/-- Mirrors `Parser::ensure_starter_byte`: empty input → `UnexpectedEndOfFile`;
wrong byte → `UnexpectedStarterByte`; otherwise the byte is consumed. -/
def ensureStarterByte (starter : Nat) (input : List Nat) :
    Except ParseError (List Nat) :=
  match input with
  | [] => .error .unexpectedEndOfFile
  | b :: rest =>
    if b = starter then .ok rest else .error .unexpectedStarterByte

/-- Mirrors `Parser::ensure_magic_number` (src/io/parser.rs lines 154–161):
8 bytes are taken (short input → `UnexpectedEndOfFile`) and compared with
`MAGIC_NUMBER`. -/
def ensureMagicNumber (input : List Nat) : Except ParseError (List Nat) :=
  if input.length < MAGIC_NUMBER.length then .error .unexpectedEndOfFile
  else if input.take MAGIC_NUMBER.length = MAGIC_NUMBER then
    .ok (input.drop MAGIC_NUMBER.length)
  else .error .invalidMagicNumber

/-- Mirrors `Parser::parse_version` (src/io/parser.rs lines 144–152): 4 bytes,
big-endian. -/
def parseVersion (input : List Nat) : Except ParseError (Nat × List Nat) :=
  match input with
  | b0 :: b1 :: b2 :: b3 :: rest =>
    .ok (b0 * 16777216 + b1 * 65536 + b2 * 256 + b3, rest)
  | _ => .error .unexpectedEndOfFile

/-- Mirrors `Parser::parse_value` (src/io/parser.rs lines 121–142): starter byte,
2-byte big-endian length (short input → `UnexpectedEndOfFile`), then the
payload (short input → `UnexpectedEndOfValue(remaining, needed)`). -/
def parseValue (isSecret : Bool) (input : List Nat) :
    Except ParseError (Value × List Nat) :=
  let starter :=
    if isSecret then SECRET_VALUE_STARTER_BYTE else VALUE_STARTER_BYTE
  match ensureStarterByte starter input with
  | .error e => .error e
  | .ok rest =>
    match rest with
    | l1 :: l2 :: rest2 =>
      let length := l1 * 256 + l2
      if rest2.length < length then
        .error (.unexpectedEndOfValue rest2.length length)
      else
        .ok (Value.new (rest2.take length) isSecret, rest2.drop length)
    | _ => .error .unexpectedEndOfFile

/-- Mirrors `Parser::parse_key_value` (src/io/parser.rs lines 112–119): a non-secret
key, a peeked starter deciding the value's secrecy, the value, and — last,
as in the source — the UTF-8 interpretation of the key. -/
def parseKeyValue (input : List Nat) :
    Except ParseError ((List Nat × Value) × List Nat) :=
  match parseValue false input with
  | .error e => .error e
  | .ok (key, rest) =>
    match rest with
    | [] => .error .unexpectedEndOfFile
    | b :: _ =>
      match parseValue (b = SECRET_VALUE_STARTER_BYTE) rest with
      | .error e => .error e
      | .ok (value, rest2) =>
        match key.parse_string with
        | .error e => .error e
        | .ok k => .ok ((k, value), rest2)

/-- The key/value loop of `Parser::parse_header` (src/io/parser.rs lines
46–52): loop while the peeked byte (peeked with `?`, so end of input is an
error) is the VALUE starter. -/
def parseHeaderEntries (fuel : Nat) (raw : Entries) (input : List Nat) :
    Except ParseError (Entries × List Nat) :=
  match fuel with
  | 0 => .error .unexpectedEndOfFile
  | fuel + 1 =>
    match input with
    | [] => .error .unexpectedEndOfFile
    | b :: _ =>
      if b = VALUE_STARTER_BYTE then
        match parseKeyValue input with
        | .error e => .error e
        | .ok ((k, v), rest) =>
          parseHeaderEntries fuel (entriesInsert raw k v) rest
      else
        .ok (raw, input)

/-- Mirrors `Parser::parse_header` (src/io/parser.rs lines 40–58): version, raw
entries, `Header::try_from` (which may panic, hence `Option`), then
`set_version`. -/
def parseHeader (fuel : Nat) (input : List Nat) :
    Option (Except ParseError (Header × List Nat)) :=
  match parseVersion input with
  | .error e => some (.error e)
  | .ok (version, rest) =>
    match parseHeaderEntries fuel [] rest with
    | .error e => some (.error e)
    | .ok (raw, rest2) =>
      match Header.tryFrom raw with
      | none => none
      | some (.error e) => some (.error e)
      | some (.ok header) => some (.ok (header.set_version version, rest2))

/-- The key/value loop of `Parser::parse_record` (src/io/parser.rs lines
64–70): the starter was peeked before entering; inside the loop the next
starter is peeked with `unwrap_or(0xff)`, so end of input exits the loop. -/
def parseRecordEntries (fuel : Nat) (starterByte : Nat) (raw : Entries)
    (input : List Nat) : Except ParseError (Entries × List Nat) :=
  match fuel with
  | 0 => .error .unexpectedEndOfFile
  | fuel + 1 =>
    if starterByte = VALUE_STARTER_BYTE then
      match parseKeyValue input with
      | .error e => .error e
      | .ok ((k, v), rest) =>
        parseRecordEntries fuel (rest.headD 0xff) (entriesInsert raw k v) rest
    else
      .ok (raw, input)

/-- Mirrors `Parser::parse_record` (src/io/parser.rs lines 60–75): record starter,
the first peek uses `?` (end of input is an error), then the loop, then
`Record::try_from`. -/
def parseRecord (fuel : Nat) (input : List Nat) :
    Except ParseError (Record × List Nat) :=
  match ensureStarterByte RECORD_STARTER_BYTE input with
  | .error e => .error e
  | .ok rest =>
    match rest with
    | [] => .error .unexpectedEndOfFile
    | b :: _ =>
      match parseRecordEntries fuel b [] rest with
      | .error e => .error e
      | .ok (raw, rest2) =>
        match Record.tryFrom raw with
        | .error e => .error e
        | .ok record => .ok (record, rest2)

mutual

/-- Mirrors `Parser::parse_collection` (src/io/parser.rs lines 77–110): collection
starter, then the item loop. -/
def parseCollection (fuel : Nat) (input : List Nat) :
    Except ParseError (Collection × List Nat) :=
  match fuel with
  | 0 => .error .unexpectedEndOfFile
  | fuel + 1 =>
    match ensureStarterByte COLLECTION_STARTER_BYTE input with
    | .error e => .error e
    | .ok rest => parseCollectionItems fuel [] [] [] rest

/-- The item loop of `Parser::parse_collection`: peek (with `?`, so end of
input is an error) until the ender byte; key/value pairs go to the extras,
records and child collections are appended in order; the ender byte is
consumed and `Collection::try_from` validates the label. -/
def parseCollectionItems (fuel : Nat) (children : List Collection)
    (records : List Record) (extras : Entries) (input : List Nat) :
    Except ParseError (Collection × List Nat) :=
  match fuel with
  | 0 => .error .unexpectedEndOfFile
  | fuel + 1 =>
    match input with
    | [] => .error .unexpectedEndOfFile
    | b :: _ =>
      if b = COLLECTION_ENDER_BYTE then
        match Collection.tryFrom children records extras with
        | .error e => .error e
        | .ok collection => .ok (collection, input.drop 1)
      else if b = VALUE_STARTER_BYTE then
        match parseKeyValue input with
        | .error e => .error e
        | .ok ((k, v), rest) =>
          parseCollectionItems fuel children records (entriesInsert extras k v)
            rest
      else if b = COLLECTION_STARTER_BYTE then
        match parseCollection fuel input with
        | .error e => .error e
        | .ok (collection, rest) =>
          parseCollectionItems fuel (children ++ [collection]) records extras
            rest
      else if b = RECORD_STARTER_BYTE then
        match parseRecord fuel input with
        | .error e => .error e
        | .ok (record, rest) =>
          parseCollectionItems fuel children (records ++ [record]) extras rest
      else
        .error .unexpectedStarterByte

end

/-- Mirrors `Parser::parse` (src/io/parser.rs lines 27–34): magic number, header,
root collection; any remaining input is ignored.  The source wraps the
result as `Swd::from_root(header, collection)`, which binds exactly the
header and the root, so the parse result is modelled as that pair.  A
panic anywhere (only `Header::try_from` can panic) is `none`. -/
def Parser.parse (input : List Nat) :
    Option (Except ParseError (Header × Collection)) :=
  match ensureMagicNumber input with
  | .error e => some (.error e)
  | .ok rest =>
    match parseHeader (rest.length + 1) rest with
    | none => none
    | some (.error e) => some (.error e)
    | some (.ok (header, rest2)) =>
      match parseCollection (2 * rest2.length + 4) rest2 with
      | .error e => some (.error e)
      | .ok (collection, _) => some (.ok (header, collection))

/-! ## Transient-state erasure

Two containers "differ only in transient state" (the header's derived-key
slot and the `revealed_secret` of records) exactly when their erasures are
equal; the erasure clears those two fields and nothing else. -/

/-- Clears a record's transient `revealed_secret`. -/
def Record.eraseTransient (r : Record) : Record :=
  { r with revealedSecret := none }

mutual

/-- Clears the `revealed_secret` of every record in the tree. -/
def Collection.eraseTransient : Collection → Collection
  | .mk label children records extras =>
    .mk label (collectionListErase children)
      (records.map Record.eraseTransient) extras

/-- Erasure mapped over child collections. -/
def collectionListErase : List Collection → List Collection
  | [] => []
  | c :: cs => c.eraseTransient :: collectionListErase cs

end

/-- Clears the header's derived-key slot and every record's
`revealed_secret`; all persistent fields (and the registries) are kept. -/
def Swd.eraseTransient (s : Swd) : Swd :=
  { s with
    header := { s.header with key := none }
    root := s.root.eraseTransient }

/-! ## Concrete fixtures used by the claim theorems and witnesses -/

/-- UTF-8 bytes of `"sha3-256"`, the default hash registry binding. -/
def sha3Name : List Nat := [0x73, 0x68, 0x61, 0x33, 0x2d, 0x32, 0x35, 0x36]

/-- UTF-8 bytes of `"aes-gcm"`, the default cipher registry binding. -/
def aesGcmName : List Nat := [0x61, 0x65, 0x73, 0x2d, 0x67, 0x63, 0x6d]

/-- UTF-8 bytes of `"root"`. -/
def kRoot : List Nat := [0x72, 0x6f, 0x6f, 0x74]

/-- A legally constructed header: version 1, both hash-function names
`"sha3-256"`, cipher `"aes-gcm"`, one-byte salts and digest, no extras. -/
def minimalHeader : Header :=
  Header.new 1 sha3Name sha3Name aesGcmName [0] [0] [0] []

/-- A legally constructed container: the minimal header over an empty root
collection labeled `"root"` (as `Swd::new` builds it via
`Collection::new`), with empty registries (registries do not influence
serialization). -/
def minimalSwd : Swd :=
  ⟨minimalHeader, Collection.new kRoot, ⟨[], []⟩, ⟨[]⟩⟩

/-- A raw header entries map holding all seven required fields, non-secret,
with `"v"` holding the 4-byte version 1 and `"mkhf"` holding
`"sha3-256"`. -/
def fullRawHeader : Entries :=
  [(kV, Value.new [0, 0, 0, 1] false),
   (kMKHF, Value.new sha3Name false),
   (kKHF, Value.new sha3Name false),
   (kMKS, Value.new [0] false),
   (kKS, Value.new [1] false),
   (kMKH, Value.new [2] false),
   (kKC, Value.new aesGcmName false)]

/-- Like `fullRawHeader` but with a 4-byte `"mkhf"` entry, which drives
`Header::try_from` past its version check into the second
`remove("mkhf").unwrap()`. -/
def fullRawHeader4 : Entries :=
  [(kV, Value.new [0, 0, 0, 1] false),
   (kMKHF, Value.new [9, 9, 9, 9] false),
   (kKHF, Value.new sha3Name false),
   (kMKS, Value.new [0] false),
   (kKS, Value.new [1] false),
   (kMKH, Value.new [2] false),
   (kKC, Value.new aesGcmName false)]

/-- A file laid out exactly as the spec's wire format describes: magic,
raw 4-byte version, the seven required header fields as framed key/value
pairs, and a root collection carrying a `"label"` extra. -/
def wellFormedFile : List Nat :=
  MAGIC_NUMBER ++ [0, 0, 0, 1] ++
    Value.str_to_bytes kV false ++ Value.str_to_bytes [0, 0, 0, 1] false ++
    Value.str_to_bytes kMKHF false ++ Value.str_to_bytes sha3Name false ++
    Value.str_to_bytes kKHF false ++ Value.str_to_bytes sha3Name false ++
    Value.str_to_bytes kKC false ++ Value.str_to_bytes aesGcmName false ++
    Value.str_to_bytes kMKS false ++ Value.str_to_bytes [0] false ++
    Value.str_to_bytes kKS false ++ Value.str_to_bytes [1] false ++
    Value.str_to_bytes kMKH false ++ Value.str_to_bytes [2] false ++
    [COLLECTION_STARTER_BYTE] ++
    Value.str_to_bytes kLabel false ++ Value.str_to_bytes kRoot false ++
    [COLLECTION_ENDER_BYTE]

/-- The identity hash function, used as a registered hash in witnesses. -/
def idHash : HashFn := fun bytes => bytes

/-- A one-entry hash registry binding the name `"h"` to `idHash`. -/
def wReg : HashFunctionRegistry := ⟨[([0x68], idHash)]⟩

/-- A header whose hash-function names point into `wReg` and whose stored
digest equals `idHash("\x09" ‖ master_key_salt)`. -/
def wHeader : Header :=
  ⟨1, [0x68], [0x68], [9, 1], aesGcmName, [1], [2], none, []⟩

/-- Container for the unlock witness. -/
def wSwd : Swd := ⟨wHeader, Collection.new kRoot, ⟨[], []⟩, wReg⟩

/-- Container with transient state set: derived key present, one record
with a revealed secret. -/
def transientSwd : Swd :=
  ⟨{ wHeader with key := some [5] },
    .mk kRoot [] [⟨kLabel, [7], some [0x61], []⟩] [], ⟨[], []⟩, ⟨[]⟩⟩

/-- The same container with the transient state cleared. -/
def persistentSwd : Swd :=
  ⟨wHeader, .mk kRoot [] [⟨kLabel, [7], none, []⟩] [], ⟨[], []⟩, ⟨[]⟩⟩

/-- Container whose header names a hash function absent from its (empty)
hash registry. -/
def unregSwd : Swd := ⟨minimalHeader, Collection.new kRoot, ⟨[], []⟩, ⟨[]⟩⟩

/-! ## Supporting lemmas -/

/-- Serialization of a record reads only label, secret and extras, so erasing the
transient `revealed_secret` does not change it. -/
theorem erase_record_to_bytes (r : Record) :
    r.eraseTransient.to_bytes = r.to_bytes := by
  cases r
  rfl

/-- Serializing erased records equals serializing the originals. -/
theorem recordList_toBytes_erase (rs : List Record) :
    (rs.map Record.eraseTransient).map Record.to_bytes =
      rs.map Record.to_bytes := by
  rw [List.map_map]
  exact List.map_congr_left (fun r _ => erase_record_to_bytes r)

mutual

/-- Serialization of a collection is unchanged by transient-state erasure. -/
theorem erase_collection_to_bytes :
    ∀ c : Collection, c.eraseTransient.to_bytes = c.to_bytes
  | .mk label children records extras => by
    simp only [Collection.eraseTransient, Collection.to_bytes,
      collectionListErase_toBytes children, recordList_toBytes_erase records]

/-- List version of `erase_collection_to_bytes`. -/
theorem collectionListErase_toBytes :
    ∀ cs : List Collection,
      collectionListToBytes (collectionListErase cs) = collectionListToBytes cs
  | [] => rfl
  | c :: cs => by
    simp only [collectionListErase, collectionListToBytes,
      erase_collection_to_bytes c, collectionListErase_toBytes cs]

end

/-- Serialization of a header reads neither the key slot nor anything transient,
so erasure does not change it. -/
theorem erase_header_to_bytes (h : Header) :
    Header.to_bytes { h with key := none } = h.to_bytes := by
  cases h
  rfl

/-- Serialization of a container is unchanged by transient-state erasure. -/
theorem erase_swd_to_bytes (s : Swd) :
    s.eraseTransient.to_bytes = s.to_bytes := by
  show MAGIC_NUMBER ++ Header.to_bytes { s.header with key := none } ++
      s.root.eraseTransient.to_bytes = _
  rw [erase_header_to_bytes, erase_collection_to_bytes]
  rfl

/-- A name absent from an association list's keys is not found by the
`==`-based lookup the registries use. -/
theorem assoc_find_none {α : Type} (l : List (List Nat × α)) (n : List Nat)
    (h : n ∉ l.map (·.1)) :
    (l.find? (fun p => p.1 == n)).map (·.2) = none := by
  rw [List.find?_eq_none.mpr]
  · rfl
  · intro p hp hbeq
    exact h (List.mem_map.mpr ⟨p, hp, by simpa using (eq_of_beq hbeq)⟩)

/-! ## Claims -/

/-- C1.  The round-trip claim fails on the code: for the legally
constructed minimal container (well-formed header, labeled root, no
records), parsing the serializer's output does not succeed — it fails with
`MissingRequiredField("v")`.  The serializer writes the raw version bytes
after the `"v"` key instead of a framed value, writes the salts and digest
unframed, and never writes `"kc"`; the parser reads the `"v"` key frame as
the version and mis-frames everything after it. -/
theorem parse_of_serialized_minimal_container_fails :
    Parser.parse minimalSwd.to_bytes =
      some (.error (.missingRequiredField kV)) := by
  rfl

/-- C2.  Unlock correctness: when the header's hash-function names are
registered, `unlock(mk)` returns `true` exactly when
`hash(mk ‖ master_key_salt)` equals the stored digest, in which case the
derived key `hash'(mk ‖ key_salt)` is stored into the header's key slot;
on a mismatch it returns `false` and leaves the container unchanged. -/
theorem swd_unlock_correct (s : Swd) (mk : List Nat) (f g : HashFn)
    (hf : s.hashFunctionRegistry.get_function s.header.masterKeyHashFn = some f)
    (hg : s.hashFunctionRegistry.get_function s.header.keyHashFn = some g) :
    (f (mk ++ s.header.masterKeySalt) = s.header.masterKeyHash →
      s.unlock mk = some (true,
        { s with header := s.header.set_key (g (mk ++ s.header.keySalt)) })) ∧
    (f (mk ++ s.header.masterKeySalt) ≠ s.header.masterKeyHash →
      s.unlock mk = some (false, s)) := by
  constructor <;> intro h <;>
    simp [Swd.unlock, Swd.validate_master_key, Swd.populate_key,
      Header.set_key, hf, hg, h]

/-- C2 witness: with the identity hash registered as `"h"`, unlocking
`wSwd` with the master key `[0x09]` succeeds and stores the derived key. -/
theorem swd_unlock_correct_witness :
    wSwd.unlock [9] = some (true,
      { wSwd with header := wSwd.header.set_key (idHash ([9] ++ [2])) }) :=
  (swd_unlock_correct wSwd [9] idHash idHash rfl rfl).1 rfl

/-- C3.  The reveal-failure claim fails on the code: when the decrypt
function succeeds but returns bytes that are not valid UTF-8, `reveal`
does not return `false` — it panics (`std::str::from_utf8(..).unwrap()`,
src/entity/record.rs line 69), modelled as `none`. -/
theorem reveal_panics_on_invalid_utf8 :
    (Record.new [0x61] [0x62]).reveal (fun _ _ _ => .ok [0xFF]) [] =
      none := by
  rfl

/-- C4.  The Value wire-format claim fails on the code: `Value::to_bytes`
emits only the two length bytes and the payload; the starter byte the
claim (and the parser's `parse_value`) expects is missing.  On the
one-byte non-secret payload `[0x61]` the code yields `[0x00, 0x01, 0x61]`
— not the claimed `[0x00, 0x00, 0x01, 0x61]` (= `Value.str_to_bytes`). -/
theorem value_to_bytes_omits_starter :
    (Value.new [0x61] false).to_bytes = [0x00, 0x01, 0x61] ∧
      (Value.new [0x61] false).to_bytes ≠ Value.str_to_bytes [0x61] false :=
  ⟨rfl, by decide⟩

/-- C5 counterexample.  Serializing a Value with a 65,536-byte payload is
not a serializer error: `to_bytes` is total and produces bytes whose
length field has wrapped to `0x0000` (`length as u16`). -/
theorem value_to_bytes_wraps_at_65536 :
    (Value.new (List.replicate 65536 7) false).to_bytes =
      0 :: 0 :: List.replicate 65536 7 := by
  show u16castBeBytes (List.replicate 65536 7).length ++
    List.replicate 65536 7 = _
  rw [List.length_replicate]
  norm_num [u16castBeBytes, List.cons_append]

/-- C5 amended.  Serializing a Value whose payload is longer than 65,535
bytes reports no error: the two length bytes carry the payload length
modulo 2^16 (for a `65536 + k`-byte payload, the encoding of `k`),
followed by the full payload. -/
theorem value_to_bytes_wrapped_length (v : Value) (k : Nat)
    (h : v.value.length = 65536 + k) :
    v.to_bytes = (k % 65536 / 256) :: k % 256 :: v.value := by
  have h1 : (65536 + k) % 65536 = k % 65536 := by omega
  have h2 : (65536 + k) % 256 = k % 256 := by omega
  simp [Value.to_bytes, u16castBeBytes, h, h1, h2]

/-- C5 witness for the amended statement, at the 65,536-byte payload. -/
theorem value_to_bytes_wrapped_length_witness :
    (Value.new (List.replicate 65536 7) false).to_bytes =
      (0 % 65536 / 256) :: 0 % 256 ::
        (Value.new (List.replicate 65536 7) false).value :=
  value_to_bytes_wrapped_length (Value.new (List.replicate 65536 7) false) 0
    (by rw [show (Value.new (List.replicate 65536 7) false).value =
        List.replicate 65536 7 from rfl, List.length_replicate])

/-- C6.  The header-extraction claim fails on the code: on a raw map with
all seven required fields present and non-secret (`"mkhf"` holding
`"sha3-256"`), `Header::try_from` returns `InvalidVersionNumber` — it
reads the *version* from the `"mkhf"` entry; and when `"mkhf"` does hold
4 bytes it panics on the second `remove("mkhf").unwrap()` (`none`). -/
theorem header_try_from_never_extracts :
    Header.tryFrom fullRawHeader = some (.error .invalidVersionNumber) ∧
      Header.tryFrom fullRawHeader4 = none := by
  exact ⟨rfl, rfl⟩

/-- C7 counterexample.  On `[MAGIC][0x00,0x00,0x00,0x01][0x03][0x04]` the
parser does not fail with `MissingRequiredField("mkhf")`. -/
theorem scenario6_not_missing_mkhf :
    Parser.parse (MAGIC_NUMBER ++ [0, 0, 0, 1, 3, 4]) ≠
      some (.error (.missingRequiredField kMKHF)) := by
  intro hc
  have h : Parser.parse (MAGIC_NUMBER ++ [0, 0, 0, 1, 3, 4]) =
      some (.error (.missingRequiredField kV)) := by rfl
  rw [h] at hc
  simp only [Option.some.injEq, Except.error.injEq,
    ParseError.missingRequiredField.injEq, kV, kMKHF] at hc
  exact absurd hc (by decide)

/-- C7 amended.  On that input the parser fails with
`MissingRequiredField("v")`: `"v"` is the first entry of
`REQUIRED_HEADER_FIELDS` and the empty raw header map lacks it. -/
theorem scenario6_yields_missing_v :
    Parser.parse (MAGIC_NUMBER ++ [0, 0, 0, 1, 3, 4]) =
      some (.error (.missingRequiredField kV)) := by
  rfl

/-- C8.  Transient state is never serialized: two containers whose
transient-state erasures coincide (equal persistent fields; the key slot
and any `revealed_secret` free to differ) serialize to identical bytes. -/
theorem to_bytes_independent_of_transient_state (s1 s2 : Swd)
    (h : s1.eraseTransient = s2.eraseTransient) :
    s1.to_bytes = s2.to_bytes := by
  rw [← erase_swd_to_bytes s1, h, erase_swd_to_bytes]

/-- C8 witness: a container with a populated key slot and a revealed
record serializes exactly like its cleared twin. -/
theorem to_bytes_independent_of_transient_state_witness :
    transientSwd.to_bytes = persistentSwd.to_bytes :=
  to_bytes_independent_of_transient_state transientSwd persistentSwd rfl

/-- C9.  The trailing-bytes claim is about successful parses, but
`Parser::parse` cannot succeed on any input: `Header::try_from` reads the
version from `"mkhf"` and then removes `"mkhf"` a second time, so every
run errors or panics before a container is built.  On a file laid out
exactly per the documented wire format the parser fails with
`InvalidVersionNumber` (the `"mkhf"` value `"sha3-256"` is not 4 bytes). -/
theorem parse_wellformed_file_fails :
    Parser.parse wellFormedFile = some (.error .invalidVersionNumber) := by
  rfl

/-- C10.  Registry lookups are partial: `get_function`, `get_encryptor`
and `get_decryptor` panic (modelled `none`) on any unregistered name, and
`unlock` panics on a container whose header names an unregistered hash
function instead of returning `false`. -/
theorem registry_unregistered_lookups_panic
    (hr : HashFunctionRegistry) (cr : CipherRegistry)
    (n1 n2 n3 : List Nat) (s : Swd) (mk : List Nat)
    (h1 : n1 ∉ hr.get_names)
    (h2 : n2 ∉ cr.encryptFunctions.map (·.1))
    (h3 : n3 ∉ cr.decryptFunctions.map (·.1))
    (h4 : s.header.masterKeyHashFn ∉ s.hashFunctionRegistry.get_names) :
    hr.get_function n1 = none ∧ cr.get_encryptor n2 = none ∧
      cr.get_decryptor n3 = none ∧ s.unlock mk = none := by
  refine ⟨assoc_find_none _ _ h1, assoc_find_none _ _ h2,
    assoc_find_none _ _ h3, ?_⟩
  have hm : s.hashFunctionRegistry.get_function s.header.masterKeyHashFn =
      none := assoc_find_none _ _ h4
  simp [Swd.unlock, Swd.validate_master_key, hm]

/-- C10 witness: with empty registries every lookup panics, and unlocking
a container whose registry is empty panics. -/
theorem registry_unregistered_lookups_panic_witness :
    HashFunctionRegistry.get_function ⟨[]⟩ sha3Name = none ∧
      CipherRegistry.get_encryptor ⟨[], []⟩ aesGcmName = none ∧
      CipherRegistry.get_decryptor ⟨[], []⟩ aesGcmName = none ∧
      unregSwd.unlock [9] = none :=
  registry_unregistered_lookups_panic ⟨[]⟩ ⟨[], []⟩ sha3Name aesGcmName
    aesGcmName unregSwd [9] (by simp [HashFunctionRegistry.get_names])
    (by simp) (by simp)
    (by simp [HashFunctionRegistry.get_names, unregSwd, minimalHeader,
      Header.new])

end Swords
